import Mathlib

/-!
Shallow embedding of the `the_keys` lock-gateway client and its polling
coordinator, translated from the Python source:

* `custom_components/the_keys/the_keyspy/devices/gateway.py`
  (`TheKeysGateway`: `_rate_limit`, the wrapper methods, `action`,
  `__http_request`),
* `custom_components/the_keys/__init__.py` (`async_update_data`),
* `custom_components/the_keys/button.py` and `lock.py` (verb handlers).

Time is modelled as an exact rational-valued clock (`time.time()` values in
seconds); `time.sleep(d)` advances the clock by exactly `d`, and each HTTP
round trip advances it by an environment-supplied latency.  Responses,
transport-attempt outcomes and per-device fetch outcomes are supplied by
environment scripts, making every run a pure, executable function.
-/

namespace TheKeys

/-- All available actions (gateway.py, `class Action`). -/
inductive Action
  | STATUS
  | UPDATE
  | SYNCHRONIZE
  | LOCKER_OPEN
  | LOCKER_CLOSE
  | LOCKER_CALIBRATE
  | LOCKER_STATUS
  | LOCKER_SYNCHRONIZE
  | LOCKER_UPDATE
deriving DecidableEq, Repr

/-- URL path resolved for each action (gateway.py, `action`, the `match`
statement at lines 119-138). -/
def urlOf : Action → String
  | .STATUS => "status"
  | .UPDATE => "update"
  | .SYNCHRONIZE => "synchronize"
  | .LOCKER_OPEN => "open"
  | .LOCKER_CLOSE => "close"
  | .LOCKER_CALIBRATE => "calibrate"
  | .LOCKER_STATUS => "locker_status"
  | .LOCKER_SYNCHRONIZE => "locker/synchronize"
  | .LOCKER_UPDATE => "locker/update"

/-- Rate-limit class used by the public wrapper method of each action
(gateway.py lines 71-115: `status`/`update`/`synchronize` and
`locker_synchronize`/`locker_update` pass `light_operation=True`;
`locker_open`/`locker_close`/`locker_calibrate`/`locker_status` pass
`light_operation=False`). -/
def lightOperation : Action → Bool
  | .STATUS => true
  | .UPDATE => true
  | .SYNCHRONIZE => true
  | .LOCKER_OPEN => false
  | .LOCKER_CLOSE => false
  | .LOCKER_CALIBRATE => false
  | .LOCKER_STATUS => false
  | .LOCKER_SYNCHRONIZE => true
  | .LOCKER_UPDATE => true

/-- A decoded JSON response body, restricted to the two fields the client
inspects: `status` (`"ok"`/`"ko"`, possibly absent) and `code`. -/
structure Resp where
  status : Option String
  code : Option Int
deriving DecidableEq, Repr

/-- gateway.py lines 160-161: `if "status" not in response_data:
response_data["status"] = "ok"`. -/
def withStatus (r : Resp) : Resp :=
  match r.status with
  | none => { status := some "ok", code := r.code }
  | some _ => r

/-- The form-encoded request payload built by `action` (lines 144-157).
The `hash` field of the real payload is
`base64(hmac_sha256(share_code, ts_as_ascii))`, a pure function of the
share code and the timestamp; the model records exactly that pair of
inputs, so "the hash was regenerated from a fresh timestamp" is visible as
the recorded pair changing. -/
structure Payload where
  identifier : Option String
  fake : Bool
  ts : Option Int
  hash : Option (String × Int)
deriving DecidableEq, Repr

/-- The empty dict `{}` (falsy in Python, so it selects GET). -/
def Payload.empty : Payload := ⟨none, false, none, none⟩

/-- gateway.py lines 144-157: build the request data with a fresh timestamp.
`ts = str(int(time.time()))` is modelled as `⌊now⌋` (unix seconds, sent as
an ascii decimal). -/
def buildData (act : Action) (identifier share_code : String) (now : ℚ) : Payload :=
  let base := if identifier ≠ "" then
    { Payload.empty with identifier := some identifier } else Payload.empty
  if act = Action.UPDATE then { Payload.empty with fake := true }
  else if share_code ≠ "" then
    { base with ts := some ⌊now⌋, hash := some (share_code, ⌊now⌋) }
  else base

/-- Observable events of one `action` call (plus the rate-limit wait done by
the public wrapper that invoked it). `httpReq` records the URL, the payload
and the clock value at which the request is issued. -/
inductive Ev
  | rlWait (light : Bool)
  | sleepEv (d : ℚ)
  | httpReq (url : String) (data : Payload) (t : ℚ)
deriving DecidableEq, Repr

/-- How an `action` call ends. `raised e` is `raise RuntimeError(e)` where
`e` is the decoded (status-defaulted) error body; `noScript` marks an
under-specified environment (the real code always receives a response from
the transport layer, which is modelled separately). -/
inductive ActionOutcome
  | ok (r : Resp)
  | raised (e : Resp)
  | noScript
deriving DecidableEq, Repr

/-- gateway.py lines 140-179: the code-33 retry loop of `action`.
`fuel` is the number of loop iterations remaining
(`fuel = max_ts_retries - ts_attempt`, so the top-level call has fuel 3);
the Python guard `ts_attempt < max_ts_retries - 1` is `1 ≤ fuel` after the
current iteration is peeled off.  The `fuel = 0` base case is the
unreachable fallback `raise` at line 179.  Each list entry is one
transport-level round trip: the response and its latency. -/
def actionLoop (act : Action) (identifier share_code : String) :
    Nat → ℚ → List (Resp × ℚ) → List Ev × ActionOutcome × ℚ
  | 0, t, _ => ([], .raised ⟨some "ko", some 33⟩, t)
  | _ + 1, t, [] => ([], .noScript, t)
  | fuel + 1, t, (r, lat) :: env =>
    let data := buildData act identifier share_code t
    let r1 := withStatus r
    if r1.status = some "ko" then
      if r1.code = some 33 ∧ 1 ≤ fuel then
        let rest := actionLoop act identifier share_code fuel (t + lat + 1) env
        (Ev.httpReq (urlOf act) data t :: Ev.sleepEv 1 :: rest.1, rest.2.1, rest.2.2)
      else ([Ev.httpReq (urlOf act) data t], .raised r1, t + lat)
    else ([Ev.httpReq (urlOf act) data t], .ok r1, t + lat)

/-- The two configured delays (gateway.py `__init__`:
`rate_limit_delay` = heavy, `rate_limit_delay_light` = light). -/
structure GwConfig where
  heavy : ℚ
  light : ℚ
deriving DecidableEq, Repr

/-- gateway.py line 57: `delay = self._rate_limit_delay_light if
light_operation else self._rate_limit_delay`. -/
def delayFor (cfg : GwConfig) (light : Bool) : ℚ :=
  if light then cfg.light else cfg.heavy

/-- gateway.py lines 46-68, `_rate_limit`: given the single shared
`_last_request_time` and the current clock, the clock value at which the
caller proceeds (which also becomes the new `_last_request_time`).  The
same `last` is consulted and overwritten whichever class the call has. -/
def rate_limit (cfg : GwConfig) (last now : ℚ) (light : Bool) : ℚ :=
  if now - last < delayFor cfg light then last + delayFor cfg light else now

/-- One public gateway operation: the wrapper method of `act` calls
`_rate_limit(light_operation=lightOperation act)` and then
`action(act, identifier, share_code)` (gateway.py lines 71-115). -/
def gatewayOp (cfg : GwConfig) (last : ℚ) (act : Action) (identifier share_code : String)
    (now : ℚ) (env : List (Resp × ℚ)) : List Ev × ActionOutcome × ℚ :=
  let t := rate_limit cfg last now (lightOperation act)
  let res := actionLoop act identifier share_code 3 t env
  (Ev.rlWait (lightOperation act) :: res.1, res.2.1, res.2.2)

/-- Number of HTTP requests in a trace. -/
def httpCount : List Ev → Nat
  | [] => 0
  | Ev.httpReq _ _ _ :: rest => httpCount rest + 1
  | _ :: rest => httpCount rest

/-- Checker for claim C1 as stated: every `httpReq` is preceded by an
`rlWait` with no other `httpReq` in between (the boolean argument says
whether a rate-limit wait has happened since the last request). -/
def reqsRateLimited : List Ev → Bool → Bool
  | [], _ => true
  | Ev.rlWait _ :: rest, _ => reqsRateLimited rest true
  | Ev.httpReq _ _ _ :: rest, armed => armed && reqsRateLimited rest false
  | Ev.sleepEv _ :: rest, armed => reqsRateLimited rest armed

/-- Checker for the events following the first request of an `action` call:
every further `httpReq` is immediately preceded by a 1-second sleep (and by
no rate-limit wait). -/
def retriesAfterSleep : List Ev → Bool
  | Ev.sleepEv d :: Ev.httpReq _ _ _ :: rest => (d == 1) && retriesAfterSleep rest
  | Ev.httpReq _ _ _ :: _ => false
  | _ :: rest => retriesAfterSleep rest
  | [] => true

/-- The payload `{"fake": True}` sent by `Action.UPDATE` (line 149). -/
def updatePayload : Payload := { Payload.empty with fake := true }

/-- Every `httpReq` in the trace carries payload `p`. -/
def allReqsHaveData (p : Payload) : List Ev → Bool
  | [] => true
  | Ev.httpReq _ d _ :: rest => (d == p) && allReqsHaveData p rest
  | _ :: rest => allReqsHaveData p rest

/-! ### Transport layer: `__http_request` (gateway.py lines 181-251) -/

/-- Outcome of one transport attempt, decided by the environment: which
`except` branch of `__http_request` fires (or none).  `connRefused` is a
`requests.exceptions.ConnectionError` whose text contains
"Connection refused" or "Errno 111"; `connOther` any other
`ConnectionError`; `timeoutReset` a `requests` timeout or a
`ConnectionResetError`; `reqError` any other `RequestException`. -/
inductive TOutcome
  | success (r : Resp)
  | connRefused
  | connOther
  | timeoutReset
  | reqError
deriving DecidableEq, Repr

/-- Observable transport events: one HTTP attempt, or one backoff sleep of
the given duration. -/
inductive TEv
  | attempt (method url : String)
  | backoff (d : ℚ)
deriving DecidableEq, Repr

/-- How `__http_request` ends. -/
inductive TResult
  | ok (r : Resp)
  | raisedRefused
  | raisedConnOther
  | raisedTimeout
  | raisedReqError
  | noScript
deriving DecidableEq, Repr

/-- gateway.py lines 190-250: the transport retry loop.  `fuel` is the
number of attempts remaining (`max_retries - attempt`, top-level fuel 3);
the Python guard `attempt < max_retries - 1` is `1 ≤ fuel` after the
current attempt is peeled off.  `delay` is `retry_delay`, doubled after
each backoff.  Returns the events, the result, and the unconsumed rest of
the outcome script. -/
def http_request_loop (method url : String) :
    Nat → ℚ → List TOutcome → List TEv × TResult × List TOutcome
  | 0, _, outs => ([], .noScript, outs)
  | _ + 1, _, [] => ([], .noScript, [])
  | fuel + 1, delay, o :: outs =>
    match o with
    | .success r => ([TEv.attempt method url], .ok r, outs)
    | .connRefused =>
      ([TEv.attempt method url], .raisedRefused, outs)
    | .connOther =>
      if 1 ≤ fuel then
        let r := http_request_loop method url fuel (delay * 2) outs
        (TEv.attempt method url :: TEv.backoff delay :: r.1, r.2)
      else ([TEv.attempt method url], .raisedConnOther, outs)
    | .timeoutReset =>
      if 1 ≤ fuel then
        let r := http_request_loop method url fuel (delay * 2) outs
        (TEv.attempt method url :: TEv.backoff delay :: r.1, r.2)
      else ([TEv.attempt method url], .raisedTimeout, outs)
    | .reqError => ([TEv.attempt method url], .raisedReqError, outs)

/-- gateway.py line 182: `method = "post" if data else "get"` — an empty
dict is falsy in Python, so an empty payload selects GET. -/
def methodFor (data : Payload) : String :=
  if data = Payload.empty then "get" else "post"

/-- gateway.py lines 181-190: `__http_request` with `timeout = 10`,
`max_retries = 3`, `retry_delay = 1`. -/
def http_request (url : String) (data : Payload) (outs : List TOutcome) :
    List TEv × TResult × List TOutcome :=
  http_request_loop (methodFor data) url 3 1 outs

/-- Last event of a transport trace. -/
def lastEv : List TEv → Option TEv
  | [] => none
  | [e] => some e
  | _ :: rest => lastEv rest

/-! ### Polling coordinator: `async_update_data` (`__init__.py` lines 49-225) -/

/-- Modelled from the spec: the lock device class `TheKeysLock` is not under
src/ — only its callers are.  Per spec section 3, a lock device has an
`id`, a display `name`, mutable `is_locked` and `battery_level`, and a
back-reference to the gateway that owns it; `gatewayHost` is `some h` when
the object has a `_gateway` attribute whose `_host` is `h`, `none` when
`hasattr(_d, "_gateway")` is false. -/
structure Lock where
  id : Nat
  name : String
  is_locked : Bool
  battery_level : Nat
  gatewayHost : Option String
deriving DecidableEq, Repr

/-- An entry of the coordinator's device list: a `TheKeysLock`, or some
other device kind (the `isinstance(device, TheKeysLock)` check fails). -/
inductive Device
  | lock (l : Lock)
  | other
deriving DecidableEq, Repr

/-- Modelled from the spec: the body of `TheKeysLock.retrieve_infos` is not
under src/.  Per spec section 4.5, a successful status fetch updates the
device's mutable fields in place, and a failed one raises, leaving the
fields untouched.  The coordinator's parsing of the raised error text into
a numeric code (`__init__.py` lines 130-145) is abstracted into the
environment supplying the parsed `code` directly (`none` when no code could
be parsed). -/
inductive InfoResult
  | ok (locked : Bool) (battery : Nat)
  | netErr
  | appErr (code : Option Int)
deriving DecidableEq, Repr

/-- Observable events of one refresh cycle. -/
inductive CEv
  | probeReq (host : String)
  | logRecovery
  | logSynchronizing
  | logUnreachable (reason : String) (warnLevel : Bool)
  | deviceReq (id : Nat)
  | syncReq (id : Nat)
  | waitEv (d : ℚ)
deriving DecidableEq, Repr

/-- `__init__.py` lines 170-193: the inner synchronize-retry loop for error
38.  `g k` says whether the k-th `device._gateway.synchronize` call
succeeds (returns) or raises.  `fuel` is the number of sync attempts
remaining (top-level fuel 3); the guard `sync_attempt < 2` is `1 ≤ fuel`
after the current attempt is peeled off; a 5-second wait separates failed
attempts. -/
def syncLoop (id : Nat) (g : Nat → Bool) : Nat → Nat → Bool × List CEv
  | _, 0 => (false, [])
  | k, fuel + 1 =>
    if g k then (true, [CEv.syncReq id])
    else if 1 ≤ fuel then
      let r := syncLoop id g (k + 1) fuel
      (r.1, CEv.syncReq id :: CEv.waitEv 5 :: r.2)
    else (false, [CEv.syncReq id])

/-- `__init__.py` lines 113-217: the per-device status retry loop
(`for attempt in range(3)`).  `infos a` is the outcome of the status fetch
on attempt `a`; `syncs a` is the sync-outcome script used if attempt `a`
fails with code 38.  `fuel` is the number of status attempts remaining
(top-level call: attempt 0, fuel 3); `fuel = 0` is the loop running out of
range without success. -/
def deviceAttempts (l : Lock) (infos : Nat → InfoResult) (syncs : Nat → Nat → Bool) :
    Nat → Nat → Lock × List CEv
  | _, 0 => (l, [])
  | attempt, fuel + 1 =>
    match infos attempt with
    | .ok locked batt =>
      ({ l with is_locked := locked, battery_level := batt }, [CEv.deviceReq l.id])
    | .netErr => (l, [CEv.deviceReq l.id])
    | .appErr code =>
      if code = some 400 ∨ code = some 500 then
        let r := deviceAttempts l infos syncs (attempt + 1) fuel
        (r.1, CEv.deviceReq l.id :: CEv.waitEv 6 :: r.2)
      else if code = some 38 then
        let s := syncLoop l.id (syncs attempt) 0 3
        if s.1 then
          let r := deviceAttempts l infos syncs (attempt + 1) fuel
          (r.1, CEv.deviceReq l.id :: (s.2 ++ r.2))
        else (l, CEv.deviceReq l.id :: s.2)
      else if code = some 33 ∨ code = some 34 then
        if attempt = 0 then
          let r := deviceAttempts l infos syncs (attempt + 1) fuel
          (r.1, CEv.deviceReq l.id :: r.2)
        else (l, [CEv.deviceReq l.id])
      else (l, [CEv.deviceReq l.id])

/-- `__init__.py` lines 110-222: the device-phase loop over the device
list.  Environments are indexed by device position; a 0.5-second wait
follows every lock (inside the `isinstance` guard, after the retry loop). -/
def devicePhase (infos : Nat → Nat → InfoResult) (syncs : Nat → Nat → Nat → Bool) :
    List Device → Nat → List Device × List CEv
  | [], _ => ([], [])
  | Device.other :: rest, i =>
    let r := devicePhase infos syncs rest (i + 1)
    (Device.other :: r.1, r.2)
  | Device.lock l :: rest, i =>
    let d := deviceAttempts l (infos i) (syncs i) 0 3
    let r := devicePhase infos syncs rest (i + 1)
    (Device.lock d.1 :: r.1, d.2 ++ (CEv.waitEv (1 / 2) :: r.2))

/-- Python truthiness of the optional gateway-host string: `None` and the
empty string are falsy. -/
def pythonTruthy : Option String → Bool
  | none => false
  | some s => s ≠ ""

/-- `__init__.py` lines 58-62: pull the host from the first device that is
a `TheKeysLock` and has a `_gateway` attribute. -/
def firstLockGateway : List Device → Option String
  | [] => none
  | Device.lock l :: rest =>
    match l.gatewayHost with
    | some h => some h
    | none => firstLockGateway rest
  | Device.other :: rest => firstLockGateway rest

/-- How the reachability probe (`requests.get(f"http://{host}/status",
timeout=3)` plus `.json()`) ends: a decoded body with an optional
`current_status` field, or an exception. -/
inductive ProbeExc
  | timedOut
  | refused
  | dns
  | other (typeName : String)
deriving DecidableEq, Repr

/-- `__init__.py` lines 86-94: classify the probe exception into the log
reason.  The string matching on `str(e)` is abstracted into the exception
kind. -/
def probeReason : ProbeExc → String
  | .timedOut => "connection timed out"
  | .refused => "connection refused"
  | .dns => "DNS resolution failed"
  | .other n => n

/-- Result of the reachability probe. -/
inductive ProbeResult
  | ok (current_status : Option String)
  | exc (e : ProbeExc)
deriving DecidableEq, Repr

/-- Python `needle in hay` on strings: substring test. -/
def strContains (hay needle : String) : Bool :=
  (List.range (hay.length + 1)).any fun i => needle.isPrefixOf (hay.drop i)

/-- `__init__.py` lines 49-225, `async_update_data`: one refresh cycle.
Inputs: the configured gateway host, the sticky `_gateway_reachable` flag,
the device list, the probe outcome, and the per-device environments.
Returns the device snapshot handed back to the coordinator, the new
reachability flag, and the cycle's event trace. -/
def asyncUpdateData (cfgHost : Option String) (reachable : Bool) (devs : List Device)
    (probe : ProbeResult) (infos : Nat → Nat → InfoResult)
    (syncs : Nat → Nat → Nat → Bool) : List Device × Bool × List CEv :=
  let gatewayHost := if pythonTruthy cfgHost then cfgHost else firstLockGateway devs
  if pythonTruthy gatewayHost then
    match probe with
    | .ok cs =>
      let recov : List CEv := if reachable then [] else [CEv.logRecovery]
      if strContains (cs.getD "") "Synchronizing" then
        (devs, true, CEv.probeReq (gatewayHost.getD "") :: (recov ++ [CEv.logSynchronizing]))
      else
        let dp := devicePhase infos syncs devs 0
        (dp.1, true, CEv.probeReq (gatewayHost.getD "") :: (recov ++ dp.2))
    | .exc e =>
      (devs, false,
        [CEv.probeReq (gatewayHost.getD ""), CEv.logUnreachable (probeReason e) reachable])
  else
    let dp := devicePhase infos syncs devs 0
    (dp.1, reachable, dp.2)

/-- Number of per-device requests (status fetches and synchronize calls) in
a cycle trace. -/
def countDevReqs : List CEv → Nat
  | [] => 0
  | CEv.deviceReq _ :: rest => countDevReqs rest + 1
  | CEv.syncReq _ :: rest => countDevReqs rest + 1
  | _ :: rest => countDevReqs rest

/-- The event kinds the device phase can emit (no probe, no
reachability-transition logging). -/
def isDevEv : CEv → Bool
  | CEv.deviceReq _ => true
  | CEv.syncReq _ => true
  | CEv.waitEv _ => true
  | _ => false

def onlyDeviceEvents (l : List CEv) : Bool := l.all isDevEv

/-! ### Verb handlers: button.py and lock.py -/

/-- Whether the underlying device verb call (`device.calibrate()`,
`device.sync()`, `device.open()`, `device.close()`,
`device.retrieve_infos()`) returns normally or raises. -/
inductive VerbResult
  | ok
  | fail
deriving DecidableEq, Repr

/-- Whether the handler returns normally or lets an exception escape. -/
inductive HandlerOutcome
  | returned
  | raisedOut
deriving DecidableEq, Repr

/-- button.py lines 65-76, `TheKeysCalibrateButton.async_press`: the
`except` clause logs the error and does not re-raise.  The second component
records whether an error was logged. -/
def calibrateButtonPress (hasCalibrate : Bool) (callResult : VerbResult) :
    HandlerOutcome × Bool :=
  if hasCalibrate then
    match callResult with
    | .ok => (.returned, false)
    | .fail => (.returned, true)
  else (.returned, false)

/-- button.py lines 87-102, `TheKeysSyncButton.async_press`: same shape,
with a `retrieve_infos` fallback; the `except` clause logs and does not
re-raise. -/
def syncButtonPress (hasSync hasRetrieve : Bool) (callResult : VerbResult) :
    HandlerOutcome × Bool :=
  if hasSync then
    match callResult with
    | .ok => (.returned, false)
    | .fail => (.returned, true)
  else if hasRetrieve then
    match callResult with
    | .ok => (.returned, false)
    | .fail => (.returned, true)
  else (.returned, false)

/-- lock.py lines 83-93, `TheKeysLockEntity.async_calibrate`: the `except`
clause logs the error and then `raise`s it onward. -/
def lockEntityCalibrate (hasCalibrate : Bool) (callResult : VerbResult) :
    HandlerOutcome × Bool :=
  if hasCalibrate then
    match callResult with
    | .ok => (.returned, false)
    | .fail => (.raisedOut, true)
  else (.returned, false)

/-- lock.py lines 95-108, `TheKeysLockEntity.async_sync`: logs and
re-raises. -/
def lockEntitySync (hasSync hasRetrieve : Bool) (callResult : VerbResult) :
    HandlerOutcome × Bool :=
  if hasSync then
    match callResult with
    | .ok => (.returned, false)
    | .fail => (.raisedOut, true)
  else if hasRetrieve then
    match callResult with
    | .ok => (.returned, false)
    | .fail => (.raisedOut, true)
  else (.returned, false)

/-- lock.py lines 59-62, `TheKeysLockEntity.lock`: `self._device.close()`
with no `try`/`except` — a failure propagates unlogged. -/
def lockEntityLock (callResult : VerbResult) : HandlerOutcome × Bool :=
  match callResult with
  | .ok => (.returned, false)
  | .fail => (.raisedOut, false)

/-- lock.py lines 64-67, `TheKeysLockEntity.unlock`: `self._device.open()`
with no `try`/`except`. -/
def lockEntityUnlock (callResult : VerbResult) : HandlerOutcome × Bool :=
  match callResult with
  | .ok => (.returned, false)
  | .fail => (.raisedOut, false)

/-! ### Helper lemmas -/

theorem withStatus_of_some {r : Resp} {s : String} (h : r.status = some s) :
    withStatus r = r := by
  unfold withStatus
  rw [h]

theorem buildData_update (identifier share_code : String) (now : ℚ) :
    buildData Action.UPDATE identifier share_code now = ⟨none, true, none, none⟩ := by
  simp [buildData, Payload.empty, updatePayload]

theorem buildData_signed {act : Action} (identifier : String) {share_code : String}
    (hu : act ≠ Action.UPDATE) (hs : share_code ≠ "") (now : ℚ) :
    (buildData act identifier share_code now).ts = some ⌊now⌋
    ∧ (buildData act identifier share_code now).hash = some (share_code, ⌊now⌋) := by
  simp only [buildData]
  rw [if_neg hu, if_pos hs]
  exact ⟨rfl, rfl⟩

/-- Every `actionLoop` call on a nonempty script starts with the HTTP
request built at the entry clock, and every later request in its trace is
immediately preceded by a 1-second sleep. -/
theorem actionLoop_cons (act : Action) (identifier share_code : String) :
    ∀ (fuel : Nat) (t : ℚ) (r : Resp) (lat : ℚ) (env : List (Resp × ℚ)),
      ∃ rest,
        (actionLoop act identifier share_code (fuel + 1) t ((r, lat) :: env)).1
          = Ev.httpReq (urlOf act) (buildData act identifier share_code t) t :: rest
        ∧ retriesAfterSleep rest = true := by
  intro fuel
  induction fuel with
  | zero =>
    intro t r lat env
    simp only [actionLoop]
    split
    · split
      · next h => exact absurd h.2 (by omega)
      · exact ⟨[], rfl, rfl⟩
    · exact ⟨[], rfl, rfl⟩
  | succ n ih =>
    intro t r lat env
    simp only [actionLoop]
    split
    · split
      · cases env with
        | nil =>
          refine ⟨Ev.sleepEv 1
            :: (actionLoop act identifier share_code (n + 1) (t + lat + 1) []).1, rfl, ?_⟩
          simp [actionLoop, retriesAfterSleep]
        | cons p env2 =>
          obtain ⟨r2, l2⟩ := p
          obtain ⟨rest2, hrest2, hgood⟩ := ih (t + lat + 1) r2 l2 env2
          refine ⟨Ev.sleepEv 1
            :: (actionLoop act identifier share_code (n + 1) (t + lat + 1) ((r2, l2) :: env2)).1,
            rfl, ?_⟩
          rw [hrest2]
          simp [retriesAfterSleep, hgood]
      · exact ⟨[], rfl, rfl⟩
    · exact ⟨[], rfl, rfl⟩

theorem lastEv_cons_of_ne_nil {x : TEv} {l : List TEv} (h : l ≠ []) :
    lastEv (x :: l) = lastEv l := by
  cases l with
  | nil => exact absurd rfl h
  | cons y ys => rfl

/-! ### Claim theorems -/

/-- C8, counterexample.  The claim states that a light call issued shortly
after a heavy call "still waits out the prior heavy call's full heavy-delay
window before proceeding".  With the default delays (heavy 5, light 1), a
heavy request recorded at time 10 and a light call arriving at 10.1, the
light call proceeds at time 11 — strictly before the heavy window ends at
10 + 5 = 15.  The rate limiter applies the delay of the current call's
class, not of the previous call's class. -/
theorem light_call_proceeds_before_heavy_window :
    rate_limit ⟨5, 1⟩ 10 (10 + 1 / 10) true = 11 ∧ (11 : ℚ) < 10 + 5 := by
  constructor
  · norm_num [rate_limit, delayFor]
  · norm_num

/-- C8, amended.  `_rate_limit` consults and overwrites one shared
`last_request_time` whichever class the call has (the single `last`
argument of `rate_limit` in this model), and the caller proceeds exactly at
`max now (last + delay[class])`: at least `delay[class]` seconds after the
previous request of any class, and never before the current time. -/
theorem rate_limit_shared_window (cfg : GwConfig) (last now : ℚ) (light : Bool) :
    rate_limit cfg last now light = max now (last + delayFor cfg light)
    ∧ last + delayFor cfg light ≤ rate_limit cfg last now light
    ∧ now ≤ rate_limit cfg last now light := by
  unfold rate_limit
  rcases lt_or_le (now - last) (delayFor cfg light) with h | h
  · rw [if_pos h]
    refine ⟨?_, le_refl _, by linarith⟩
    rw [max_eq_right (by linarith)]
  · rw [if_neg (not_lt.mpr h)]
    refine ⟨?_, by linarith, le_refl _⟩
    rw [max_eq_left (by linarith)]

/-- C9.  For every invocation of `action` with `Action.UPDATE` (reached
through its wrapper `update`), every HTTP request in the trace carries the
payload `{"fake": True}` and nothing else: no `identifier`, no `ts`, no
`hash`, whatever identifier and share code were supplied. -/
theorem update_action_payload_fake_only (cfg : GwConfig) (last : ℚ)
    (identifier share_code : String) (now : ℚ) (env : List (Resp × ℚ)) :
    allReqsHaveData ⟨none, true, none, none⟩
      (gatewayOp cfg last Action.UPDATE identifier share_code now env).1 = true := by
  have aux : ∀ (fuel : Nat) (t : ℚ) (env : List (Resp × ℚ)),
      allReqsHaveData ⟨none, true, none, none⟩
        (actionLoop Action.UPDATE identifier share_code fuel t env).1 = true := by
    intro fuel
    induction fuel with
    | zero => intro t env; simp [actionLoop, allReqsHaveData]
    | succ n ih =>
      intro t env
      cases env with
      | nil => simp [actionLoop, allReqsHaveData]
      | cons p env2 =>
        obtain ⟨r, lat⟩ := p
        simp only [actionLoop]
        split
        · split
          · simp [allReqsHaveData, buildData_update, ih]
          · simp [allReqsHaveData, buildData_update]
        · simp [allReqsHaveData, buildData_update]
  simp only [gatewayOp, allReqsHaveData]
  exact aux 3 (rate_limit cfg last now (lightOperation Action.UPDATE)) env

/-- C3.  If the gateway answers `"ko"` with code 33 on three consecutive
attempts, `action` raises `RuntimeError(response_data)` carrying the
decoded body of the third response, and issues exactly 3 HTTP requests —
no fourth, whatever else the environment scripted. -/
theorem three_code33_responses_raise_no_fourth_request (cfg : GwConfig) (last : ℚ)
    (act : Action) (identifier share_code : String) (now : ℚ)
    (r1 r2 r3 : Resp) (l1 l2 l3 : ℚ) (extra : List (Resp × ℚ))
    (h1 : r1.status = some "ko") (h1c : r1.code = some 33)
    (h2 : r2.status = some "ko") (h2c : r2.code = some 33)
    (h3 : r3.status = some "ko") (h3c : r3.code = some 33) :
    (gatewayOp cfg last act identifier share_code now
        ((r1, l1) :: (r2, l2) :: (r3, l3) :: extra)).2.1 = ActionOutcome.raised r3
    ∧ httpCount (gatewayOp cfg last act identifier share_code now
        ((r1, l1) :: (r2, l2) :: (r3, l3) :: extra)).1 = 3 := by
  have w1 := withStatus_of_some h1
  have w2 := withStatus_of_some h2
  have w3 := withStatus_of_some h3
  constructor
  · simp [gatewayOp, actionLoop, w1, w2, w3, h1, h2, h3, h1c, h2c, h3c]
  · simp [gatewayOp, actionLoop, w1, w2, w3, h1, h2, h3, h1c, h2c, h3c, httpCount]

/-- Witness for C3 at a concrete input. -/
theorem three_code33_responses_raise_no_fourth_request_witness :
    (gatewayOp ⟨5, 1⟩ 0 Action.STATUS "" "" 0
        [(⟨some "ko", some 33⟩, 0), (⟨some "ko", some 33⟩, 0), (⟨some "ko", some 33⟩, 0)]).2.1
      = ActionOutcome.raised ⟨some "ko", some 33⟩
    ∧ httpCount (gatewayOp ⟨5, 1⟩ 0 Action.STATUS "" "" 0
        [(⟨some "ko", some 33⟩, 0), (⟨some "ko", some 33⟩, 0), (⟨some "ko", some 33⟩, 0)]).1 = 3 :=
  three_code33_responses_raise_no_fourth_request ⟨5, 1⟩ 0 Action.STATUS "" "" 0
    ⟨some "ko", some 33⟩ ⟨some "ko", some 33⟩ ⟨some "ko", some 33⟩ 0 0 0 []
    rfl rfl rfl rfl rfl rfl

/-- C7, counterexample.  A calibrate-button press whose device call fails
does NOT propagate the failure: `TheKeysCalibrateButton.async_press`
catches the exception, logs it, and returns normally, so the claim that
every user-initiated verb invocation re-raises its terminal failure is
false at this input. -/
theorem button_calibrate_swallows_failure :
    (calibrateButtonPress true VerbResult.fail).1 = HandlerOutcome.returned
    ∧ (calibrateButtonPress true VerbResult.fail).2 = true
    ∧ (calibrateButtonPress true VerbResult.fail).1 ≠ HandlerOutcome.raisedOut := by
  refine ⟨rfl, rfl, by decide⟩

/-- C7, amended.  Verb invocations through the lock entity — `lock`,
`unlock`, and the `calibrate`/`sync` entity services — re-raise a terminal
failure to the caller; the calibrate and sync button press handlers catch
every exception, log it, and return normally, so failures through the
buttons are swallowed. -/
theorem verb_failure_propagation_by_handler :
    (lockEntityLock VerbResult.fail).1 = HandlerOutcome.raisedOut
    ∧ (lockEntityUnlock VerbResult.fail).1 = HandlerOutcome.raisedOut
    ∧ (lockEntityCalibrate true VerbResult.fail).1 = HandlerOutcome.raisedOut
    ∧ (∀ hasRetrieve : Bool,
        (lockEntitySync true hasRetrieve VerbResult.fail).1 = HandlerOutcome.raisedOut)
    ∧ (lockEntitySync false true VerbResult.fail).1 = HandlerOutcome.raisedOut
    ∧ (∀ (hasCalibrate : Bool) (res : VerbResult),
        (calibrateButtonPress hasCalibrate res).1 = HandlerOutcome.returned)
    ∧ (∀ (hasSync hasRetrieve : Bool) (res : VerbResult),
        (syncButtonPress hasSync hasRetrieve res).1 = HandlerOutcome.returned)
    ∧ (calibrateButtonPress true VerbResult.fail).2 = true
    ∧ (syncButtonPress true true VerbResult.fail).2 = true := by
  refine ⟨rfl, rfl, rfl, ?_, rfl, ?_, ?_, rfl, rfl⟩
  · intro hr; rfl
  · intro hc res; cases hc <;> cases res <;> rfl
  · intro hs hr res; cases hs <;> cases hr <;> cases res <;> rfl

/-- C1, counterexample.  A heavy `locker_open` call (heavy delay 5, light
delay 1) whose first request is answered with code 33: the retried request
inside the code-33 loop is preceded only by a 1-second `time.sleep`, not by
a `_rate_limit` wait, so the claim that every HTTP request issued by
`perform` — including code-33 retries — is preceded by a RateLimiter wait
is false at this input.  (The trace is `[rlWait, httpReq at t=100,
sleepEv 1, httpReq at t=101]`: the second request comes 1 second after the
first, far less than the 5-second heavy delay.) -/
theorem locker_retry_not_rate_limited :
    reqsRateLimited (gatewayOp ⟨5, 1⟩ 0 Action.LOCKER_OPEN "1" "k" 100
        [(⟨some "ko", some 33⟩, 0), (⟨some "ok", none⟩, 0)]).1 false = false
    ∧ httpCount (gatewayOp ⟨5, 1⟩ 0 Action.LOCKER_OPEN "1" "k" 100
        [(⟨some "ko", some 33⟩, 0), (⟨some "ok", none⟩, 0)]).1 = 2 := by
  constructor <;> decide

/-- C1, amended.  For every action kind and every environment, the FIRST
HTTP request of a wrapper-invoked `perform` is preceded by the
class-correct RateLimiter wait, issued at a time at least `delay[class]`
after the previous request to the gateway; every request re-sent inside the
code-33 retry loop is instead immediately preceded by a fixed 1-second
sleep and by no RateLimiter wait. -/
theorem first_request_rate_limited_retries_sleep_only (cfg : GwConfig) (last : ℚ)
    (act : Action) (identifier share_code : String) (now : ℚ) (r : Resp) (lat : ℚ)
    (env : List (Resp × ℚ)) :
    ∃ rest,
      (gatewayOp cfg last act identifier share_code now ((r, lat) :: env)).1
        = Ev.rlWait (lightOperation act)
          :: Ev.httpReq (urlOf act)
              (buildData act identifier share_code (rate_limit cfg last now (lightOperation act)))
              (rate_limit cfg last now (lightOperation act))
          :: rest
      ∧ retriesAfterSleep rest = true
      ∧ last + delayFor cfg (lightOperation act) ≤ rate_limit cfg last now (lightOperation act) := by
  obtain ⟨rest, hr, hgood⟩ := actionLoop_cons act identifier share_code 2
    (rate_limit cfg last now (lightOperation act)) r lat env
  refine ⟨rest, ?_, hgood, (rate_limit_shared_window cfg last now (lightOperation act)).2.1⟩
  simp only [gatewayOp]
  rw [show (3 : Nat) = 2 + 1 from rfl, hr]

/-- C4.  Whenever a code-33 response causes a retry of a signed request
(`share_code ≠ ""`, action not `UPDATE`), the retried request's payload is
rebuilt with a fresh timestamp: both `ts` and the HMAC `hash` are
regenerated from the clock after the 1-second pause, and since at least one
full second has passed, the retried request's `ts` is strictly greater than
— in particular different from — the rejected request's `ts`. -/
theorem code33_retry_regenerates_ts_and_hash (act : Action) (identifier share_code : String)
    (t lat : ℚ) (r r2 : Resp) (lat2 : ℚ) (fuel : Nat) (env : List (Resp × ℚ))
    (hs : share_code ≠ "") (hu : act ≠ Action.UPDATE)
    (hko : r.status = some "ko") (hcode : r.code = some 33) (hlat : 0 ≤ lat) :
    (∃ rest,
      (actionLoop act identifier share_code (fuel + 2) t ((r, lat) :: (r2, lat2) :: env)).1
        = Ev.httpReq (urlOf act) (buildData act identifier share_code t) t
          :: Ev.sleepEv 1
          :: Ev.httpReq (urlOf act) (buildData act identifier share_code (t + lat + 1))
              (t + lat + 1)
          :: rest)
    ∧ (buildData act identifier share_code t).ts = some ⌊t⌋
    ∧ (buildData act identifier share_code (t + lat + 1)).ts = some ⌊t + lat + 1⌋
    ∧ (buildData act identifier share_code (t + lat + 1)).hash
        = some (share_code, ⌊t + lat + 1⌋)
    ∧ (⌊t⌋ : ℤ) < ⌊t + lat + 1⌋ := by
  have w := withStatus_of_some hko
  have hfloor : (⌊t⌋ : ℤ) < ⌊t + lat + 1⌋ := by
    have h1 : t + 1 ≤ t + lat + 1 := by linarith
    calc (⌊t⌋ : ℤ) < ⌊t⌋ + 1 := by omega
      _ = ⌊t + 1⌋ := (Int.floor_add_one t).symm
      _ ≤ ⌊t + lat + 1⌋ := Int.floor_mono h1
  refine ⟨?_, (buildData_signed identifier hu hs t).1,
    (buildData_signed identifier hu hs (t + lat + 1)).1,
    (buildData_signed identifier hu hs (t + lat + 1)).2, hfloor⟩
  obtain ⟨rest2, hrest2, _⟩ := actionLoop_cons act identifier share_code fuel
    (t + lat + 1) r2 lat2 env
  refine ⟨rest2, ?_⟩
  have hstep :
      (actionLoop act identifier share_code (fuel + 2) t ((r, lat) :: (r2, lat2) :: env)).1
        = Ev.httpReq (urlOf act) (buildData act identifier share_code t) t
          :: Ev.sleepEv 1
          :: (actionLoop act identifier share_code (fuel + 1) (t + lat + 1)
              ((r2, lat2) :: env)).1 := by
    simp [actionLoop, w, hko, hcode]
  rw [hstep, hrest2]

/-- Witness for C4 at a concrete input. -/
theorem code33_retry_regenerates_ts_and_hash_witness :
    (∃ rest,
      (actionLoop Action.LOCKER_OPEN "1" "k" (1 + 2) 0
          [(⟨some "ko", some 33⟩, 0), (⟨some "ok", none⟩, 0)]).1
        = Ev.httpReq (urlOf Action.LOCKER_OPEN) (buildData Action.LOCKER_OPEN "1" "k" 0) 0
          :: Ev.sleepEv 1
          :: Ev.httpReq (urlOf Action.LOCKER_OPEN)
              (buildData Action.LOCKER_OPEN "1" "k" (0 + 0 + 1)) (0 + 0 + 1)
          :: rest)
    ∧ (buildData Action.LOCKER_OPEN "1" "k" 0).ts = some ⌊(0 : ℚ)⌋
    ∧ (buildData Action.LOCKER_OPEN "1" "k" (0 + 0 + 1)).ts = some ⌊(0 : ℚ) + 0 + 1⌋
    ∧ (buildData Action.LOCKER_OPEN "1" "k" (0 + 0 + 1)).hash
        = some ("k", ⌊(0 : ℚ) + 0 + 1⌋)
    ∧ (⌊(0 : ℚ)⌋ : ℤ) < ⌊(0 : ℚ) + 0 + 1⌋ :=
  code33_retry_regenerates_ts_and_hash Action.LOCKER_OPEN "1" "k" 0 0
    ⟨some "ko", some 33⟩ ⟨some "ok", none⟩ 0 1 []
    (by decide) (by decide) rfl rfl (by norm_num)

/-- C5, counterexample.  A request whose first attempt times out and whose
second attempt is refused: the transport layer makes 2 HTTP attempts with a
1-second backoff sleep between them before raising the refusal, so the
claim that a request encountering a connection-refused error makes exactly
one HTTP attempt with no retry and no backoff sleep is false at this
input. -/
theorem refused_after_timeout_two_attempts :
    (http_request "status" Payload.empty [TOutcome.timeoutReset, TOutcome.connRefused]).1
      = [TEv.attempt "get" "status", TEv.backoff 1, TEv.attempt "get" "status"]
    ∧ (http_request "status" Payload.empty [TOutcome.timeoutReset, TOutcome.connRefused]).2.1
      = TResult.raisedRefused := by
  constructor <;> decide

/-- C5, amended.  A connection-refused error is never retried and triggers
no backoff sleep: a request whose FIRST attempt is refused makes exactly
one HTTP attempt and raises immediately, consuming nothing further from
the environment; and in general, whenever `__http_request` ends by raising
a refusal, the refused attempt is the final event of its trace (no attempt
and no backoff follows it) and every scripted outcome after the refusal is
left unconsumed.  Attempts BEFORE the refusal may exist when earlier
attempts failed with timeout/reset errors. -/
theorem refused_fails_fast_no_retry :
    (∀ (url : String) (data : Payload) (post : List TOutcome),
      http_request url data (TOutcome.connRefused :: post)
        = ([TEv.attempt (methodFor data) url], TResult.raisedRefused, post))
    ∧ (∀ (method url : String) (fuel : Nat) (delay : ℚ) (outs : List TOutcome),
        (http_request_loop method url fuel delay outs).2.1 = TResult.raisedRefused →
        (∃ pre, outs
            = pre ++ TOutcome.connRefused :: (http_request_loop method url fuel delay outs).2.2)
        ∧ lastEv (http_request_loop method url fuel delay outs).1
            = some (TEv.attempt method url)) := by
  constructor
  · intro url data post; rfl
  · intro method url fuel
    induction fuel with
    | zero => intro delay outs h; simp [http_request_loop] at h
    | succ n ih =>
      intro delay outs h
      cases outs with
      | nil => simp [http_request_loop] at h
      | cons o rest =>
        cases o with
        | success r => simp [http_request_loop] at h
        | connRefused =>
          refine ⟨⟨[], by simp [http_request_loop]⟩, by simp [http_request_loop, lastEv]⟩
        | connOther =>
          by_cases hf : 1 ≤ n
          · have h2 : (http_request_loop method url n (delay * 2) rest).2.1
                = TResult.raisedRefused := by
              simpa [http_request_loop, hf] using h
            obtain ⟨⟨pre, hpre⟩, hlast⟩ := ih (delay * 2) rest h2
            have hne : (http_request_loop method url n (delay * 2) rest).1 ≠ [] := by
              intro he; rw [he] at hlast; simp [lastEv] at hlast
            constructor
            · refine ⟨TOutcome.connOther :: pre, ?_⟩
              simp only [http_request_loop, if_pos hf]
              rw [List.cons_append]
              exact congrArg _ hpre
            · simp only [http_request_loop, if_pos hf]
              rw [lastEv_cons_of_ne_nil (by simp),
                lastEv_cons_of_ne_nil hne]
              exact hlast
          · simp [http_request_loop, hf] at h
        | timeoutReset =>
          by_cases hf : 1 ≤ n
          · have h2 : (http_request_loop method url n (delay * 2) rest).2.1
                = TResult.raisedRefused := by
              simpa [http_request_loop, hf] using h
            obtain ⟨⟨pre, hpre⟩, hlast⟩ := ih (delay * 2) rest h2
            have hne : (http_request_loop method url n (delay * 2) rest).1 ≠ [] := by
              intro he; rw [he] at hlast; simp [lastEv] at hlast
            constructor
            · refine ⟨TOutcome.timeoutReset :: pre, ?_⟩
              simp only [http_request_loop, if_pos hf]
              rw [List.cons_append]
              exact congrArg _ hpre
            · simp only [http_request_loop, if_pos hf]
              rw [lastEv_cons_of_ne_nil (by simp),
                lastEv_cons_of_ne_nil hne]
              exact hlast
          · simp [http_request_loop, hf] at h
        | reqError => simp [http_request_loop] at h

/-- Witness for C5 (the general no-retry-after-refusal part) at a concrete
input with a timeout before the refusal. -/
theorem refused_fails_fast_no_retry_witness :
    (∃ pre, [TOutcome.timeoutReset, TOutcome.connRefused]
        = pre ++ TOutcome.connRefused
            :: (http_request_loop "get" "status" 3 1
                [TOutcome.timeoutReset, TOutcome.connRefused]).2.2)
    ∧ lastEv (http_request_loop "get" "status" 3 1
        [TOutcome.timeoutReset, TOutcome.connRefused]).1
      = some (TEv.attempt "get" "status") :=
  refused_fails_fast_no_retry.2 "get" "status" 3 1
    [TOutcome.timeoutReset, TOutcome.connRefused] (by decide)

/-- The synchronize-retry loop emits only per-device events. -/
theorem syncLoop_only_device_events (id : Nat) (g : Nat → Bool) :
    ∀ (fuel k : Nat), onlyDeviceEvents (syncLoop id g k fuel).2 = true := by
  intro fuel
  induction fuel with
  | zero => intro k; rfl
  | succ n ih =>
    intro k
    simp only [syncLoop]
    by_cases h : g k
    · simp [h, onlyDeviceEvents, isDevEv]
    · by_cases hf : 1 ≤ n
      · have := ih (k + 1)
        simp only [onlyDeviceEvents] at this
        simp [h, hf, onlyDeviceEvents, isDevEv, this]
      · simp [h, hf, onlyDeviceEvents, isDevEv]

/-- The per-device retry loop emits only per-device events. -/
theorem deviceAttempts_only_device_events (l : Lock) (infos : Nat → InfoResult)
    (syncs : Nat → Nat → Bool) :
    ∀ (fuel attempt : Nat),
      onlyDeviceEvents (deviceAttempts l infos syncs attempt fuel).2 = true := by
  intro fuel
  induction fuel with
  | zero => intro attempt; rfl
  | succ n ih =>
    intro attempt
    simp only [deviceAttempts]
    cases h : infos attempt with
    | ok locked batt => simp [onlyDeviceEvents, isDevEv]
    | netErr => simp [onlyDeviceEvents, isDevEv]
    | appErr code =>
      have ihn := ih (attempt + 1)
      simp only [onlyDeviceEvents] at ihn
      have hsl := syncLoop_only_device_events l.id (syncs attempt) 3 0
      simp only [onlyDeviceEvents] at hsl
      by_cases h45 : code = some 400 ∨ code = some 500
      · simp only [onlyDeviceEvents, if_pos h45, List.all_cons, Bool.and_eq_true]
        exact ⟨rfl, rfl, ihn⟩
      · by_cases h38 : code = some 38
        · by_cases hs : (syncLoop l.id (syncs attempt) 0 3).1
          · simp only [onlyDeviceEvents, if_neg h45, if_pos h38, if_pos hs, List.all_cons,
              List.all_append, Bool.and_eq_true]
            exact ⟨rfl, hsl, ihn⟩
          · simp only [onlyDeviceEvents, if_neg h45, if_pos h38, if_neg hs, List.all_cons,
              List.all_append, Bool.and_eq_true]
            exact ⟨rfl, hsl⟩
        · by_cases h34 : code = some 33 ∨ code = some 34
          · by_cases ha : attempt = 0
            · simp only [onlyDeviceEvents, if_neg h45, if_neg h38, if_pos h34, if_pos ha,
                List.all_cons, Bool.and_eq_true]
              exact ⟨rfl, ihn⟩
            · simp only [onlyDeviceEvents, if_neg h45, if_neg h38, if_pos h34, if_neg ha,
                List.all_cons, Bool.and_eq_true]
              exact ⟨rfl, rfl⟩
          · simp only [onlyDeviceEvents, if_neg h45, if_neg h38, if_neg h34, List.all_cons,
              Bool.and_eq_true]
            exact ⟨rfl, rfl⟩

/-- The whole device phase emits only per-device events: no probe request
and no reachability-transition logging. -/
theorem devicePhase_only_device_events (infos : Nat → Nat → InfoResult)
    (syncs : Nat → Nat → Nat → Bool) :
    ∀ (devs : List Device) (i : Nat),
      onlyDeviceEvents (devicePhase infos syncs devs i).2 = true := by
  intro devs
  induction devs with
  | nil => intro i; rfl
  | cons d rest ih =>
    intro i
    cases d with
    | other => simpa [devicePhase, onlyDeviceEvents] using ih (i + 1)
    | lock l =>
      have h1 := deviceAttempts_only_device_events l (infos i) (syncs i) 3 0
      have h2 := ih (i + 1)
      simp only [onlyDeviceEvents] at h1 h2
      simp [devicePhase, onlyDeviceEvents, isDevEv, h1, h2]

/-- Every iteration of the per-device retry loop begins with a status
fetch. -/
theorem deviceAttempts_head (l : Lock) (infos : Nat → InfoResult) (syncs : Nat → Nat → Bool)
    (attempt fuel : Nat) :
    ((deviceAttempts l infos syncs attempt (fuel + 1)).2).head? = some (CEv.deviceReq l.id) := by
  simp only [deviceAttempts]
  cases h : infos attempt with
  | ok locked batt => rfl
  | netErr => rfl
  | appErr code =>
    by_cases h45 : code = some 400 ∨ code = some 500
    · simp [h45]
    · by_cases h38 : code = some 38
      · by_cases hs : (syncLoop l.id (syncs attempt) 0 3).1
        · simp [h45, h38, hs]
        · simp [h45, h38, hs]
      · by_cases h34 : code = some 33 ∨ code = some 34
        · by_cases ha : attempt = 0
          · simp [h45, h38, h34, ha]
          · simp [h45, h38, h34, ha]
        · simp [h45, h38, h34]

/-- C2.  In every refresh cycle in which the reachability probe was
attempted (the effective gateway host is truthy) and failed with any
exception, the coordinator issues no per-device request — neither a status
fetch nor a synchronize call — and returns exactly the device collection it
was given: the same list, with every device's fields untouched (the model
never rebuilds the list in this branch, mirroring `return devices`). -/
theorem probe_failure_skips_device_polls (cfgHost : Option String) (reachable : Bool)
    (devs : List Device) (e : ProbeExc) (infos : Nat → Nat → InfoResult)
    (syncs : Nat → Nat → Nat → Bool)
    (hhost : pythonTruthy
        (if pythonTruthy cfgHost then cfgHost else firstLockGateway devs) = true) :
    (asyncUpdateData cfgHost reachable devs (ProbeResult.exc e) infos syncs).1 = devs
    ∧ countDevReqs
        (asyncUpdateData cfgHost reachable devs (ProbeResult.exc e) infos syncs).2.2 = 0 := by
  constructor <;> simp [asyncUpdateData, hhost, countDevReqs]

def infosNet : Nat → Nat → InfoResult := fun _ _ => InfoResult.netErr

def syncsNone : Nat → Nat → Nat → Bool := fun _ _ _ => false

/-- Witness for C2 at a concrete input. -/
theorem probe_failure_skips_device_polls_witness :
    (asyncUpdateData (some "192.168.1.4") true [Device.lock ⟨1, "a", false, 50, none⟩]
        (ProbeResult.exc ProbeExc.timedOut) infosNet syncsNone).1
      = [Device.lock ⟨1, "a", false, 50, none⟩]
    ∧ countDevReqs (asyncUpdateData (some "192.168.1.4") true
        [Device.lock ⟨1, "a", false, 50, none⟩]
        (ProbeResult.exc ProbeExc.timedOut) infosNet syncsNone).2.2 = 0 :=
  probe_failure_skips_device_polls (some "192.168.1.4") true
    [Device.lock ⟨1, "a", false, 50, none⟩] ProbeExc.timedOut infosNet syncsNone (by decide)

/-- C10.  If the configured gateway host is falsy and no lock device
exposes a gateway, the refresh cycle skips the reachability probe entirely
and goes straight to the per-device status fetches: the cycle is exactly
the device phase, the sticky reachability flag is returned unchanged (no
transition), and the trace contains no probe request and no
reachability-transition log event. -/
theorem no_gateway_host_skips_probe (cfgHost : Option String) (reachable : Bool)
    (devs : List Device) (probe : ProbeResult) (infos : Nat → Nat → InfoResult)
    (syncs : Nat → Nat → Nat → Bool)
    (hcfg : pythonTruthy cfgHost = false) (hdev : firstLockGateway devs = none) :
    asyncUpdateData cfgHost reachable devs probe infos syncs
      = ((devicePhase infos syncs devs 0).1, reachable, (devicePhase infos syncs devs 0).2)
    ∧ onlyDeviceEvents (asyncUpdateData cfgHost reachable devs probe infos syncs).2.2
        = true := by
  have hmain : asyncUpdateData cfgHost reachable devs probe infos syncs
      = ((devicePhase infos syncs devs 0).1, reachable, (devicePhase infos syncs devs 0).2) := by
    simp only [asyncUpdateData, hcfg, hdev]
    simp [pythonTruthy]
  refine ⟨hmain, ?_⟩
  rw [hmain]
  exact devicePhase_only_device_events infos syncs devs 0

def infosOkScript : Nat → Nat → InfoResult := fun _ _ => InfoResult.ok true 77

/-- Witness for C10 at a concrete input (auto-discovery finds no gateway:
one lock without a `_gateway` attribute). -/
theorem no_gateway_host_skips_probe_witness :
    asyncUpdateData none true [Device.lock ⟨1, "a", false, 50, none⟩]
        (ProbeResult.exc ProbeExc.timedOut) infosOkScript syncsNone
      = ((devicePhase infosOkScript syncsNone [Device.lock ⟨1, "a", false, 50, none⟩] 0).1,
         true,
         (devicePhase infosOkScript syncsNone [Device.lock ⟨1, "a", false, 50, none⟩] 0).2)
    ∧ onlyDeviceEvents (asyncUpdateData none true [Device.lock ⟨1, "a", false, 50, none⟩]
        (ProbeResult.exc ProbeExc.timedOut) infosOkScript syncsNone).2.2 = true :=
  no_gateway_host_skips_probe none true [Device.lock ⟨1, "a", false, 50, none⟩]
    (ProbeResult.exc ProbeExc.timedOut) infosOkScript syncsNone rfl rfl

def lockW : Lock := ⟨7, "front", true, 80, some "10.0.0.2"⟩

def infos38 : Nat → InfoResult := fun _ => InfoResult.appErr (some 38)

def syncsOk : Nat → Nat → Bool := fun _ _ => true

/-- C6, counterexample.  A device whose status fetch fails with code 38 on
all three attempts while every synchronize call succeeds: after the THIRD
status attempt's code-38 failure, the synchronize call succeeds
(`syncsOk 2 0 = true`) but no status retry follows — the trace ends with
that successful `syncReq` and the device's attempts are exhausted.  This
refutes the claim's unconditional "if a synchronize attempt succeeds the
status fetch is retried". -/
theorem sync_success_on_last_attempt_no_status_retry :
    deviceAttempts lockW infos38 syncsOk 0 3
      = (lockW, [CEv.deviceReq 7, CEv.syncReq 7, CEv.deviceReq 7, CEv.syncReq 7,
                 CEv.deviceReq 7, CEv.syncReq 7])
    ∧ syncsOk 2 0 = true := by
  constructor <;> decide

/-- C6, amended.  A status fetch failing with code 38 triggers the
synchronize loop before any status retry; that loop makes up to 3
synchronize attempts with a 5-second wait between failed ones; if a
synchronize attempt succeeds AND a status attempt remains (the code-38
failure was not the device's 3rd status attempt), the very next event is
the status retry; if the code-38 failure was the 3rd status attempt
(`fuel = 0`: no iterations remain), or if all 3 synchronize attempts fail,
the device is abandoned for the cycle with its prior `is_locked` and
`battery_level` values unchanged. -/
theorem code38_sync_policy (l : Lock) (infos : Nat → InfoResult) (syncs : Nat → Nat → Bool)
    (attempt fuel : Nat) (h38 : infos attempt = InfoResult.appErr (some 38)) :
    (deviceAttempts l infos syncs attempt 0 = (l, []))
    ∧ (syncs attempt 0 = false → syncs attempt 1 = false → syncs attempt 2 = false →
        deviceAttempts l infos syncs attempt (fuel + 1)
          = (l, [CEv.deviceReq l.id, CEv.syncReq l.id, CEv.waitEv 5, CEv.syncReq l.id,
                 CEv.waitEv 5, CEv.syncReq l.id]))
    ∧ (syncs attempt 0 = true →
        deviceAttempts l infos syncs attempt (fuel + 1)
          = ((deviceAttempts l infos syncs (attempt + 1) fuel).1,
             CEv.deviceReq l.id :: CEv.syncReq l.id
               :: (deviceAttempts l infos syncs (attempt + 1) fuel).2))
    ∧ (syncs attempt 0 = false → syncs attempt 1 = true →
        deviceAttempts l infos syncs attempt (fuel + 1)
          = ((deviceAttempts l infos syncs (attempt + 1) fuel).1,
             CEv.deviceReq l.id :: CEv.syncReq l.id :: CEv.waitEv 5 :: CEv.syncReq l.id
               :: (deviceAttempts l infos syncs (attempt + 1) fuel).2))
    ∧ (syncs attempt 0 = false → syncs attempt 1 = false → syncs attempt 2 = true →
        deviceAttempts l infos syncs attempt (fuel + 1)
          = ((deviceAttempts l infos syncs (attempt + 1) fuel).1,
             CEv.deviceReq l.id :: CEv.syncReq l.id :: CEv.waitEv 5 :: CEv.syncReq l.id
               :: CEv.waitEv 5 :: CEv.syncReq l.id
               :: (deviceAttempts l infos syncs (attempt + 1) fuel).2))
    ∧ (∀ f : Nat, ((deviceAttempts l infos syncs (attempt + 1) (f + 1)).2).head?
        = some (CEv.deviceReq l.id)) := by
  refine ⟨rfl, ?_, ?_, ?_, ?_, fun f => deviceAttempts_head l infos syncs (attempt + 1) f⟩
  · intro g0 g1 g2
    simp [deviceAttempts, syncLoop, h38, g0, g1, g2]
  · intro g0
    simp [deviceAttempts, syncLoop, h38, g0]
  · intro g0 g1
    simp [deviceAttempts, syncLoop, h38, g0, g1]
  · intro g0 g1 g2
    simp [deviceAttempts, syncLoop, h38, g0, g1, g2]

/-- Witness for C6 at a concrete input. -/
theorem code38_sync_policy_witness :
    (deviceAttempts lockW infos38 syncsOk 0 0 = (lockW, []))
    ∧ (syncsOk 0 0 = false → syncsOk 0 1 = false → syncsOk 0 2 = false →
        deviceAttempts lockW infos38 syncsOk 0 (2 + 1)
          = (lockW, [CEv.deviceReq lockW.id, CEv.syncReq lockW.id, CEv.waitEv 5,
                     CEv.syncReq lockW.id, CEv.waitEv 5, CEv.syncReq lockW.id]))
    ∧ (syncsOk 0 0 = true →
        deviceAttempts lockW infos38 syncsOk 0 (2 + 1)
          = ((deviceAttempts lockW infos38 syncsOk (0 + 1) 2).1,
             CEv.deviceReq lockW.id :: CEv.syncReq lockW.id
               :: (deviceAttempts lockW infos38 syncsOk (0 + 1) 2).2))
    ∧ (syncsOk 0 0 = false → syncsOk 0 1 = true →
        deviceAttempts lockW infos38 syncsOk 0 (2 + 1)
          = ((deviceAttempts lockW infos38 syncsOk (0 + 1) 2).1,
             CEv.deviceReq lockW.id :: CEv.syncReq lockW.id :: CEv.waitEv 5
               :: CEv.syncReq lockW.id
               :: (deviceAttempts lockW infos38 syncsOk (0 + 1) 2).2))
    ∧ (syncsOk 0 0 = false → syncsOk 0 1 = false → syncsOk 0 2 = true →
        deviceAttempts lockW infos38 syncsOk 0 (2 + 1)
          = ((deviceAttempts lockW infos38 syncsOk (0 + 1) 2).1,
             CEv.deviceReq lockW.id :: CEv.syncReq lockW.id :: CEv.waitEv 5
               :: CEv.syncReq lockW.id :: CEv.waitEv 5 :: CEv.syncReq lockW.id
               :: (deviceAttempts lockW infos38 syncsOk (0 + 1) 2).2))
    ∧ (∀ f : Nat, ((deviceAttempts lockW infos38 syncsOk (0 + 1) (f + 1)).2).head?
        = some (CEv.deviceReq lockW.id)) :=
  code38_sync_policy lockW infos38 syncsOk 0 2 rfl

end TheKeys
